import Mathlib

/-!
A shallow embedding of the surfsui-indexer DApp ranking engine.

The embedding follows the Rust sources:

* `src/dapp_indexer.rs` — `DAppIndexer`, `extract_dapp_interactions`,
  `update_dapp_rankings_24h`, `prune_old_interactions`, `process_checkpoint`;
* `src/database.rs` — `save_rankings_from_memory`;
* `src/config.rs` — `Config::from_env` and `Config::validate`;
* `src/models.rs` — the record types.

Modelling conventions:

* `SystemTime` timestamps become natural numbers (seconds); `now` is passed as
  an explicit parameter where the Rust code calls `SystemTime::now()`.
* Rust `HashMap<String, (String, String)>` (the application registry) becomes an
  association list; the list order models the iteration order of the one fixed
  map instance held in `DAppIndexer.dapp_names`.
* The fresh `HashMap<String, HashSet<String>>` built inside
  `update_dapp_rankings_24h` has an unspecified iteration order (Rust
  seeds `RandomState` per map), so the ranking computation takes the
  enumeration order of its keys as an explicit parameter `order`; an order is
  admissible (`validOrder`) when it enumerates exactly the keys of the map, i.e. is
  a permutation of the distinct qualifying display names.
* Database statements are modelled as state transitions on the row list of the
  `dapp_rankings` table; each statement may fail, which is modelled by boolean
  oracles (`deleteOk`, `insertOk`).  SQL quoting is serialization only (the
  stored value equals the original string), so rows carry the plain strings.
* `src/models.rs` names the count column `dau_1h` while `src/dapp_indexer.rs`
  calls the in-memory field `dau_24h`; the embedding keeps `dau_24h` for the
  in-memory ranking and `dau_1h` for the database row.
-/

namespace SurfSui

/-- Model of `DAppInteraction` (src/models.rs): one observed account-to-application
interaction. -/
structure DAppInteraction where
  package_id : String
  sender : String
  timestamp : Nat
  transaction_digest : String
  dapp_name : Option String
deriving DecidableEq, Repr

/-- Model of `DAppRanking` (src/models.rs): the current standing of one application. -/
structure DAppRanking where
  rank : Nat
  package_id : String
  dapp_name : String
  dau_24h : Nat
  last_update : Nat
  dapp_type : String
deriving DecidableEq, Repr

/-- The application registry: package id, display name, category.  The list
order models the iteration order of the fixed `HashMap` instance. -/
abbrev Registry := List (String × String × String)

/-- Model of `HashMap::get` on the registry (`self.dapp_names.get(&package_id)`). -/
def regGet (reg : Registry) (pid : String) : Option (String × String) :=
  match reg.find? (fun e => e.1 == pid) with
  | some e => some e.2
  | none => none

/-- Model of `initialize_dapp_mapping` (src/dapp_indexer.rs lines 53-81): the hardcoded
registry of tracked DApps. -/
def initialize_dapp_mapping : Registry :=
  [("0xda12d621169da92ed8af5f6b332b7bec64c840bb49bb3d4206d6739cd76bad14", "FanTV AI", "AI"),
   ("0x2cdcc3b1306a49fcd5b8ccded57116ad86ab37a93ba9d91fa1ce06a8d22a21e9", "6degrees", "Marketing"),
   ("0xa2f06318d797e3a2ba734069165e164870677f705d95d8a18b6d9aabbd588709", "Aftermath AMM", "DEX"),
   ("0xada81624f2be6abd31f2433dac2642a03414cdb20d494314a4d3d889281fb5e", "Pebble", "GameFi"),
   ("0x04e20ddf36af412a4096f9014f4a565af9e812db9a05cc40254846cf6ed0ad91", "Pyth", "Infra"),
   ("0x9c12f3aa14a449a0a23c066589e269086f021a98939f21158cfacb16d19787c3", "Momentum", "DEX"),
   ("0x7ea6e27ad7af6f3b8671d59df1aaebd7c03dddab893e52a714227b2f4fe91519", "7K Aggregator", "Aggregator"),
   ("0xb908f3c6fea6865d32e2048c520cdfe3b5c5bbcebb658117c41bad70f52b7ccc", "Claynosaurz", "NFT"),
   ("0x21f544aff826a48e6bd5364498454d8487c4a90f84995604cd5c947c06b596c3", "Suilend", "Lending"),
   ("0x9df4666296ee324a6f11e9f664e35e7fd6b6e8c9e9058ce6ee9ad5c5343c2f87", "Ika", "Infra"),
   ("0x5306f64e312b581766351c07af79c72fcb1cd25147157fdc2f8ad76de9a3fb6a", "Portal", "Bridge"),
   ("0x2476333f61ab625ae25205b6726048295fe8b356d26ca841ddf93c69bbd616c8", "Turbos", "DEX"),
   ("0x6f5e582ede61fe5395b50c4a449ec11479a54d7ff8e0158247adfda60d98970b", "Cetus AMM", "DEX"),
   ("0x3864c7c59a4889fec05d1aae4bc9dba5a0e0940594b424fbed44cb3f6ac4c032", "Cetus AMM", "DEX"),
   ("0x51966dc1d9d3e6d85aed55aa87eb9e78e928b4e74b4844a15ef7e3dfb5af3bae", "Cetus Aggregator", "Aggregator"),
   ("0x7cdd26c4aa40c990d5ca780e0919b2de796be9bb41fba461d133bfacb0f677bc", "Cetus Aggregator", "Aggregator"),
   ("0x2c68443db9e8c813b194010c11040a3ce59f47e4eb97a2ec805371505dad7459", "Wave", "Infra"),
   ("0x6d264cc3d4b7b81a7e3e47403b335d1d933ceb03dacc4328214f10bf8937a239", "NAVI Lending", "Lending"),
   ("0x8d196820b321bb3c56863b3eb0dd90a49f9eb52e3473373efcebf4388bf04416", "SpringSui", "Liquid Staking"),
   ("0x5a6df33a03a69959065b5e87aecac72d0afff893a1923833a77dcfb0d2f42980", "Metastable", "CDP")]

/-- Model of `DAppIndexer` (src/dapp_indexer.rs lines 33-38). -/
structure DAppIndexer where
  dapp_interactions : List DAppInteraction
  dapp_rankings : List DAppRanking
  dapp_names : Registry
  last_processed_checkpoint : Nat
deriving DecidableEq, Repr

/-- One event as consumed by the extractor: origin package and sender. -/
structure Event where
  package_id : String
  sender : String
deriving DecidableEq, Repr

/-- One checkpoint transaction: digest plus optional event list. -/
structure CheckpointTransaction where
  digest : String
  events : Option (List Event)
deriving DecidableEq, Repr

/-- Checkpoint data: sequence number, timestamp, transactions. -/
structure CheckpointData where
  sequence_number : Nat
  timestamp : Nat
  transactions : List CheckpointTransaction
deriving DecidableEq, Repr

/-- The event loop body of `extract_dapp_interactions`
(src/dapp_indexer.rs lines 154-177): only events whose package id is a
registry key and whose sender is non-empty yield a record. -/
def extractFromEvents (reg : Registry) (digest : String) (ts : Nat) :
    List Event → List DAppInteraction
  | [] => []
  | e :: es =>
    match regGet reg e.package_id with
    | some p =>
      if e.sender == "" then extractFromEvents reg digest ts es
      else ⟨e.package_id, e.sender, ts, digest, some p.1⟩ :: extractFromEvents reg digest ts es
    | none => extractFromEvents reg digest ts es

/-- Model of `extract_dapp_interactions` (src/dapp_indexer.rs lines 148-181). -/
def extract_dapp_interactions (reg : Registry) (tx : CheckpointTransaction)
    (checkpoint_timestamp : Nat) : List DAppInteraction :=
  match tx.events with
  | some evs => extractFromEvents reg tx.digest checkpoint_timestamp evs
  | none => []

/-- The 24-hour window length in seconds (`Duration::from_secs(24 * 60 * 60)`). -/
def WINDOW_SECS : Nat := 24 * 60 * 60

/-- Test `interaction.timestamp >= twenty_four_hours_ago`. -/
def inWindow (now : Nat) (i : DAppInteraction) : Bool :=
  decide (now - WINDOW_SECS ≤ i.timestamp)

/-- The retention predicate of `prune_old_interactions`
(src/dapp_indexer.rs lines 262-268): within the window AND a tracked DApp. -/
def keepInteraction (reg : Registry) (now : Nat) (i : DAppInteraction) : Bool :=
  inWindow now i && (regGet reg i.package_id).isSome

/-- Model of `prune_old_interactions` (src/dapp_indexer.rs lines 258-274); `now` is the
value of `SystemTime::now()` at the call. -/
def prune_old_interactions (s : DAppIndexer) (now : Nat) : DAppIndexer :=
  { s with dapp_interactions := s.dapp_interactions.filter (keepInteraction s.dapp_names now) }

/-- An interaction resolves to display name `n` when its package id is a
registry key mapped to `n` (src/dapp_indexer.rs lines 196-204). -/
def resolvesTo (reg : Registry) (n : String) (i : DAppInteraction) : Bool :=
  match regGet reg i.package_id with
  | some p => p.1 == n
  | none => false

/-- An interaction is counted for name `n`: in window and resolving to `n`. -/
def qualifies (reg : Registry) (now : Nat) (n : String) (i : DAppInteraction) : Bool :=
  inWindow now i && resolvesTo reg n i

/-- The `HashSet<String>` of unique senders accumulated for display name `n`
by the counting loop of `update_dapp_rankings_24h` (lines 190-206). -/
def sendersSet (reg : Registry) (log : List DAppInteraction) (now : Nat) (n : String) :
    Finset String :=
  ((log.filter (qualifies reg now n)).map (fun i => i.sender)).toFinset

/-- Model of `users.len()`: the unique-active-account count for display name `n`. -/
def dauCount (reg : Registry) (log : List DAppInteraction) (now : Nat) (n : String) : Nat :=
  (sendersSet reg log now n).card

/-- The key (if any) that one interaction contributes to `dapp_user_counts`. -/
def interactionName (reg : Registry) (now : Nat) (i : DAppInteraction) : Option String :=
  if inWindow now i then (regGet reg i.package_id).map Prod.fst else none

/-- The key set of `dapp_user_counts`, as a duplicate-free list: the display
names with at least one in-window interaction from a tracked package. -/
def qualifyingNamesList (reg : Registry) (log : List DAppInteraction) (now : Nat) :
    List String :=
  (log.filterMap (interactionName reg now)).dedup

/-- An admissible iteration order of `dapp_user_counts.into_iter()`: any
enumeration of exactly its keys. -/
abbrev validOrder (reg : Registry) (log : List DAppInteraction) (now : Nat)
    (order : List String) : Prop :=
  order.Perm (qualifyingNamesList reg log now)

/-- Model of `self.dapp_names.iter().find(|(_, (name, _))| name == &dapp_name)` mapped
to the package id, with fallback `"unknown"` (lines 213-217). -/
def findPackageFor (reg : Registry) (n : String) : String :=
  match reg.find? (fun e => e.2.1 == n) with
  | some e => e.1
  | none => "unknown"

/-- The same registry scan mapped to the category, fallback `"Unknown"`
(lines 220-224). -/
def findTypeFor (reg : Registry) (n : String) : String :=
  match reg.find? (fun e => e.2.1 == n) with
  | some e => e.2.2
  | none => "Unknown"

/-- The `DAppRanking` built for one key of `dapp_user_counts`
(lines 226-233); `rank` is 0 until sorting assigns it. -/
def mkRanking (reg : Registry) (log : List DAppInteraction) (now : Nat)
    (n : String) : DAppRanking :=
  { rank := 0
    package_id := findPackageFor reg n
    dapp_name := n
    dau_24h := dauCount reg log now n
    last_update := now
    dapp_type := findTypeFor reg n }

/-- Insert into a descending-by-`dau_24h` sorted list, after all entries with
`dau_24h ≥` the new one (the stable placement of the Rust stable sort
`sort_by(|a, b| b.dau_24h.cmp(&a.dau_24h))`). -/
def insertByDau (x : DAppRanking) : List DAppRanking → List DAppRanking
  | [] => [x]
  | y :: ys => if y.dau_24h < x.dau_24h then x :: y :: ys else y :: insertByDau x ys

/-- Stable sort by `dau_24h` descending (line 238). -/
def sortByDauDesc (l : List DAppRanking) : List DAppRanking :=
  l.foldl (fun acc x => insertByDau x acc) []

/-- Model of `ranking.rank = (index + 1)` for each position (lines 239-241), with the
first position receiving `k`. -/
def assignRanksFrom (k : Nat) : List DAppRanking → List DAppRanking
  | [] => []
  | x :: xs => { x with rank := k } :: assignRanksFrom (k + 1) xs

/-- The dense rank sequence `k, k+1, ...` of a given length. -/
def rankSeq (k : Nat) : Nat → List Nat
  | 0 => []
  | n + 1 => k :: rankSeq (k + 1) n

/-- The ranking list computed by `update_dapp_rankings_24h` from a log
snapshot, given the enumeration order of `dapp_user_counts`. -/
def computeRankings (reg : Registry) (order : List String)
    (log : List DAppInteraction) (now : Nat) : List DAppRanking :=
  assignRanksFrom 1 (sortByDauDesc (order.map (mkRanking reg log now)))

/-- Model of `update_dapp_rankings_24h` (src/dapp_indexer.rs lines 184-255); `now` is
`SystemTime::now()` at the call, `order` the hash-map iteration order. -/
def update_dapp_rankings_24h (order : List String) (s : DAppIndexer) (now : Nat) :
    DAppIndexer :=
  { s with dapp_rankings := computeRankings s.dapp_names order s.dapp_interactions now }

/-- The recomputation trigger of `process_checkpoint` (line 122):
`checkpoint_number % 10 == 0 || all_interactions.len() > 5`. -/
def shouldRecompute (seq : Nat) (newCount : Nat) : Bool :=
  seq % 10 == 0 || 5 < newCount

/-- Model of `process_checkpoint` (src/dapp_indexer.rs lines 92-137) as a state
transition: extract from every transaction, append to the log, always prune,
then conditionally recompute the rankings; finally record the checkpoint
number.  The database save on the recompute branch is external I/O and is
modelled separately by `save_rankings_from_memory`. -/
def process_checkpoint (order : List String) (s : DAppIndexer)
    (data : CheckpointData) (now : Nat) : DAppIndexer × List DAppInteraction :=
  let all := (data.transactions.map
    (fun tx => extract_dapp_interactions s.dapp_names tx data.timestamp)).flatten
  let s1 : DAppIndexer := { s with dapp_interactions := s.dapp_interactions ++ all }
  let s2 := prune_old_interactions s1 now
  let s3 := if shouldRecompute data.sequence_number all.length
            then update_dapp_rankings_24h order s2 now
            else s2
  ({ s3 with last_processed_checkpoint := data.sequence_number }, all)

/-- One row of the `dapp_rankings` table (src/schema.rs). -/
structure DbRow where
  rank_position : Nat
  package_id : String
  dapp_name : String
  dau_1h : Nat
  dapp_type : String
deriving DecidableEq, Repr

/-- The row inserted for one in-memory ranking by the VALUES clause of
`save_rankings_from_memory` (src/database.rs lines 126-140); SQL quote
escaping is serialization only, so stored values equal the originals. -/
def rowOfRanking (r : DAppRanking) : DbRow :=
  { rank_position := r.rank
    package_id := r.package_id
    dapp_name := r.dapp_name
    dau_1h := r.dau_24h
    dapp_type := r.dapp_type }

/-- Outcome of a publish: the final table contents, whether the call returned
`Ok`, and the sequence of table states a concurrent reader could observe at
statement boundaries. -/
structure SaveResult where
  final : List DbRow
  ok : Bool
  observable : List (List DbRow)
deriving DecidableEq, Repr

/-- Model of `save_rankings_from_memory` (src/database.rs lines 117-146): a
`DELETE FROM dapp_rankings` statement followed — with no enclosing
transaction — by one multi-row `INSERT` (skipped when the list is empty).
`deleteOk` / `insertOk` are oracles for the success of the two statements; a
failed statement leaves the table as the previous statement left it. -/
def save_rankings_from_memory (rankings : List DAppRanking) (db : List DbRow)
    (deleteOk insertOk : Bool) : SaveResult :=
  if !deleteOk then ⟨db, false, [db]⟩
  else if rankings.isEmpty then ⟨[], true, [db, []]⟩
  else if !insertOk then ⟨[], false, [db, []]⟩
  else ⟨rankings.map rowOfRanking, true, [db, [], rankings.map rowOfRanking]⟩

/-- Model of `Config` (src/config.rs lines 22-35); `update_interval` in seconds. -/
structure Config where
  database_url : String
  update_interval : Nat
  remote_storage : String
  backfill_progress_file_path : String
deriving DecidableEq, Repr

/-- Value of an ASCII digit string. -/
def digitsVal (l : List Char) : Nat :=
  l.foldl (fun acc c => acc * 10 + (c.toNat - 48)) 0

/-- Rust `str::parse::<u64>()`: an optional leading `+`, then at least one
ASCII digit, value at most `2^64 - 1`. -/
def parseU64 (s : String) : Option Nat :=
  let cs := s.data
  let ds := if cs.head? = some ('+') then cs.tail else cs
  if ds.isEmpty then none
  else if ds.all Char.isDigit then
    if digitsVal ds < 2 ^ 64 then some (digitsVal ds) else none
  else none

/-- Rust `str::starts_with`. -/
def rustStartsWith (s p : String) : Bool :=
  p.data.isPrefixOf s.data

/-- Model of `Config::validate` (src/config.rs lines 65-79). -/
def validate (c : Config) : Except String Unit :=
  if c.update_interval < 60 then
    Except.error ("UPDATE_INTERVAL_SECONDS must be at least 60 seconds")
  else if !rustStartsWith c.remote_storage ("http") then
    Except.error ("REMOTE_STORAGE must be a valid HTTP/HTTPS URL")
  else Except.ok ()

/-- Model of `Config::from_env` (src/config.rs lines 39-62) over an environment `env`
(the combined process environment and `.env` file). -/
def from_env (env : String → Option String) : Except String Config :=
  match env ("DATABASE_URL") with
  | none => Except.error ("DATABASE_URL must be set")
  | some url =>
    match parseU64 ((env ("UPDATE_INTERVAL_SECONDS")).getD ("120")) with
    | none => Except.error ("UPDATE_INTERVAL_SECONDS must be a valid number")
    | some n =>
      let cfg : Config :=
        { database_url := url
          update_interval := n
          remote_storage := (env ("REMOTE_STORAGE")).getD ("https://checkpoints.mainnet.sui.io")
          backfill_progress_file_path :=
            (env ("BACKFILL_PROGRESS_FILE_PATH")).getD ("backfill_progress/backfill_progress") }
      match validate cfg with
      | Except.error e => Except.error e
      | Except.ok _ => Except.ok cfg

/-- Whether a `Result` is the error case. -/
def isErr {ε α : Type} : Except ε α → Bool
  | Except.error _ => true
  | Except.ok _ => false

/-! ### Concrete fixtures used by counterexamples and witnesses -/

/-- A two-application registry with distinct display names. -/
def regAB : Registry := [("0xa", "A", "DEX"), ("0xb", "B", "DEX")]

/-- One in-window interaction for each of the two applications; both scores
are 1, so the two ranking entries tie. -/
def logAB : List DAppInteraction :=
  [⟨"0xa", "alice", 100000, "d1", some ("A")⟩,
   ⟨"0xb", "bob", 100000, "d2", some ("B")⟩]

/-- An indexer state holding `logAB` over `regAB`. -/
def stateAB : DAppIndexer := ⟨logAB, [], regAB, 0⟩

/-- An in-window interaction whose package id is not a registry key. -/
def iStray : DAppInteraction := ⟨"0xdeadbeef", "alice", 100000, "d9", none⟩

/-- An indexer state (with the production registry) holding only `iStray`. -/
def stateStray : DAppIndexer := ⟨[iStray], [], initialize_dapp_mapping, 0⟩

/-- A duplicate interaction: same application and same sender as `logAB`. -/
def iDup : DAppInteraction := ⟨"0xa", "alice", 100000, "d3", some ("A")⟩

/-- A persisted row present before a publish. -/
def row0 : DbRow := ⟨1, "0xa", "A", 5, "DEX"⟩

/-- A ranking to be published. -/
def rank1 : DAppRanking := ⟨1, "0xb", "B", 3, 0, "DEX"⟩

/-- A transaction with one qualifying event, one unregistered-origin event and
one empty-sender event. -/
def txW : CheckpointTransaction :=
  ⟨"dw", some [⟨"0xa", "alice"⟩, ⟨"0xz", "zoe"⟩, ⟨"0xa", ""⟩]⟩

/-- The single record `txW` yields over `regAB`. -/
def recordW : DAppInteraction := ⟨"0xa", "alice", 100, "dw", some ("A")⟩

/-- An environment defining only the connection string. -/
def envW : String → Option String :=
  fun k => if k = "DATABASE_URL" then some ("postgres://h") else none

/-- The configuration `from_env` produces from `envW`. -/
def cfgW : Config :=
  ⟨"postgres://h", 120, "https://checkpoints.mainnet.sui.io",
   "backfill_progress/backfill_progress"⟩

/-! ### Lemmas about the stable descending sort and rank assignment -/

/-- Relation `DauGe a b`: `a` may stand no lower than `b` in the descending order. -/
def DauGe (a b : DAppRanking) : Prop := b.dau_24h ≤ a.dau_24h

lemma insertByDau_perm (x : DAppRanking) (l : List DAppRanking) :
    (insertByDau x l).Perm (x :: l) := by
  induction l with
  | nil => exact List.Perm.refl _
  | cons y ys ih =>
    unfold insertByDau
    by_cases h : y.dau_24h < x.dau_24h
    · simp [h]
    · simp only [if_neg h]
      exact (ih.cons y).trans (List.Perm.swap x y ys)

lemma sortByDauAux_perm (l : List DAppRanking) :
    ∀ acc, (l.foldl (fun a x => insertByDau x a) acc).Perm (acc ++ l) := by
  induction l with
  | nil => intro acc; simp
  | cons x xs ih =>
    intro acc
    simp only [List.foldl_cons]
    exact (ih (insertByDau x acc)).trans
      (((insertByDau_perm x acc).append_right xs).trans List.perm_middle.symm)

lemma sortByDauDesc_perm (l : List DAppRanking) : (sortByDauDesc l).Perm l := by
  simpa using sortByDauAux_perm l []

lemma insertByDau_sorted {x : DAppRanking} {l : List DAppRanking}
    (h : l.Pairwise DauGe) : (insertByDau x l).Pairwise DauGe := by
  induction l with
  | nil => simp [insertByDau, DauGe]
  | cons y ys ih =>
    obtain ⟨hy, hys⟩ := List.pairwise_cons.mp h
    unfold insertByDau
    by_cases hc : y.dau_24h < x.dau_24h
    · simp only [if_pos hc]
      refine List.Pairwise.cons ?_ h
      intro z hz
      rcases List.mem_cons.mp hz with rfl | hz
      · exact le_of_lt hc
      · exact le_trans (hy z hz) (le_of_lt hc)
    · simp only [if_neg hc]
      refine List.Pairwise.cons ?_ (ih hys)
      intro z hz
      rcases List.mem_cons.mp ((insertByDau_perm x ys).mem_iff.mp hz) with rfl | hz
      · exact le_of_not_lt hc
      · exact hy z hz

lemma sortByDauAux_sorted (l : List DAppRanking) :
    ∀ acc, acc.Pairwise DauGe →
      (l.foldl (fun a x => insertByDau x a) acc).Pairwise DauGe := by
  induction l with
  | nil => intro acc h; simpa using h
  | cons x xs ih => intro acc h; exact ih _ (insertByDau_sorted h)

lemma sortByDauDesc_sorted (l : List DAppRanking) :
    (sortByDauDesc l).Pairwise DauGe :=
  sortByDauAux_sorted l [] List.Pairwise.nil

lemma assignRanksFrom_map_rank (k : Nat) (l : List DAppRanking) :
    (assignRanksFrom k l).map (fun r => r.rank) = rankSeq k l.length := by
  induction l generalizing k with
  | nil => rfl
  | cons x xs ih => simp [assignRanksFrom, rankSeq, ih]

/-- Forget the rank field (the one field rank assignment writes). -/
def eraseRank (r : DAppRanking) : DAppRanking := { r with rank := 0 }

lemma assignRanksFrom_map_eraseRank (k : Nat) (l : List DAppRanking) :
    (assignRanksFrom k l).map eraseRank = l.map eraseRank := by
  induction l generalizing k with
  | nil => rfl
  | cons x xs ih => simp [assignRanksFrom, eraseRank, ih]

lemma assignRanksFrom_map_dau (k : Nat) (l : List DAppRanking) :
    (assignRanksFrom k l).map (fun r => r.dau_24h) = l.map (fun r => r.dau_24h) := by
  induction l generalizing k with
  | nil => rfl
  | cons x xs ih => simp [assignRanksFrom, ih]

lemma assignRanksFrom_map_name (k : Nat) (l : List DAppRanking) :
    (assignRanksFrom k l).map (fun r => r.dapp_name) = l.map (fun r => r.dapp_name) := by
  induction l generalizing k with
  | nil => rfl
  | cons x xs ih => simp [assignRanksFrom, ih]

lemma assignRanksFrom_length (k : Nat) (l : List DAppRanking) :
    (assignRanksFrom k l).length = l.length := by
  induction l generalizing k with
  | nil => rfl
  | cons x xs ih => simp [assignRanksFrom, ih]

lemma mem_assignRanksFrom {r : DAppRanking} {k : Nat} {l : List DAppRanking}
    (h : r ∈ assignRanksFrom k l) :
    ∃ x ∈ l, r.dapp_name = x.dapp_name ∧ r.dau_24h = x.dau_24h := by
  induction l generalizing k with
  | nil => cases h
  | cons x xs ih =>
    rcases List.mem_cons.mp h with rfl | h
    · exact ⟨x, List.mem_cons_self x xs, rfl, rfl⟩
    · obtain ⟨y, hy, h1, h2⟩ := ih h
      exact ⟨y, List.mem_cons_of_mem x hy, h1, h2⟩

lemma assignRanksFrom_pairwise {k : Nat} {l : List DAppRanking}
    (h : l.Pairwise DauGe) : (assignRanksFrom k l).Pairwise DauGe := by
  have h2 : (l.map (fun r => r.dau_24h)).Pairwise (fun a b : Nat => b ≤ a) :=
    List.pairwise_map.mpr h
  have h3 : ((assignRanksFrom k l).map (fun r => r.dau_24h)).Pairwise
      (fun a b : Nat => b ≤ a) := by
    rw [assignRanksFrom_map_dau]; exact h2
  exact (@List.pairwise_map DAppRanking Nat (fun r => r.dau_24h)
    (fun a b => b ≤ a) (assignRanksFrom k l)).mp h3

/-! ### Lemmas about counting and name resolution -/

lemma sendersSet_append (reg : Registry) (l1 l2 : List DAppInteraction)
    (now : Nat) (n : String) :
    sendersSet reg (l1 ++ l2) now n = sendersSet reg l1 now n ∪ sendersSet reg l2 now n := by
  simp [sendersSet, List.filter_append, List.toFinset_append]

lemma qualifies_unique {reg : Registry} {now : Nat} {n m : String}
    {i : DAppInteraction} (hn : qualifies reg now n i = true) (hm : m ≠ n) :
    qualifies reg now m i = false := by
  unfold qualifies resolvesTo at hn ⊢
  cases h : regGet reg i.package_id with
  | none => simp [h]
  | some p =>
    rw [h] at hn
    have hp : p.1 = n := beq_iff_eq.mp ((Bool.and_eq_true _ _).mp hn).2
    have hf : (p.1 == m) = false := by
      rw [beq_eq_false_iff_ne, hp]
      exact Ne.symm hm
    simp [h, hf]

lemma sendersSet_singleton_of_qualifies {reg : Registry} {now : Nat} {n : String}
    {i : DAppInteraction} (h : qualifies reg now n i = true) :
    sendersSet reg [i] now n = {i.sender} := by
  simp [sendersSet, List.filter_cons, h]

lemma sendersSet_singleton_of_not_qualifies {reg : Registry} {now : Nat} {m : String}
    {i : DAppInteraction} (h : qualifies reg now m i = false) :
    sendersSet reg [i] now m = ∅ := by
  simp [sendersSet, List.filter_cons, h]

lemma interactionName_some {reg : Registry} {now : Nat} {n : String}
    {i : DAppInteraction} (h : interactionName reg now i = some n) :
    qualifies reg now n i = true := by
  unfold interactionName at h
  by_cases hw : inWindow now i
  · rw [if_pos hw] at h
    cases hr : regGet reg i.package_id with
    | none => rw [hr] at h; cases h
    | some p =>
      rw [hr] at h
      have hp : p.1 = n := by simpa using h
      simp [qualifies, resolvesTo, hw, hr, hp]
  · rw [if_neg hw] at h; cases h

lemma qualifies_interactionName {reg : Registry} {now : Nat} {n : String}
    {i : DAppInteraction} (h : qualifies reg now n i = true) :
    interactionName reg now i = some n := by
  obtain ⟨hw, hr⟩ := (Bool.and_eq_true _ _).mp h
  unfold resolvesTo at hr
  cases hg : regGet reg i.package_id with
  | none => rw [hg] at hr; cases hr
  | some p =>
    rw [hg] at hr
    have hp : p.1 = n := beq_iff_eq.mp hr
    simp [interactionName, hw, hg, hp]

lemma mem_qualifyingNamesList {reg : Registry} {log : List DAppInteraction}
    {now : Nat} {n : String} :
    n ∈ qualifyingNamesList reg log now ↔
      ∃ i ∈ log, qualifies reg now n i = true := by
  unfold qualifyingNamesList
  rw [List.mem_dedup, List.mem_filterMap]
  constructor
  · rintro ⟨i, hi, h⟩; exact ⟨i, hi, interactionName_some h⟩
  · rintro ⟨i, hi, h⟩; exact ⟨i, hi, qualifies_interactionName h⟩

/-! ### Claim theorems -/

/-- Claim C3 (counterexample): an interaction inside the window whose origin is
not a key of the production registry is nevertheless removed by
`prune_old_interactions`, contradicting "removes no record with
`timestamp >= now - window`". -/
theorem evict_removes_in_window_untracked_record :
    100000 - WINDOW_SECS ≤ iStray.timestamp ∧
    (prune_old_interactions stateStray 100000).dapp_interactions = [] := by
  constructor
  · decide
  · decide

/-- Claim C3 (amended): `prune_old_interactions` keeps exactly the records
with `timestamp ≥ now - window` whose origin identifier is a registry key; it
removes the stale ones and also the in-window ones from unregistered origins,
and removes nothing else. -/
theorem evict_membership_characterization (s : DAppIndexer) (now : Nat)
    (i : DAppInteraction) :
    i ∈ (prune_old_interactions s now).dapp_interactions ↔
      i ∈ s.dapp_interactions ∧ now - WINDOW_SECS ≤ i.timestamp ∧
        (regGet s.dapp_names i.package_id).isSome = true := by
  simp [prune_old_interactions, keepInteraction, inWindow, List.mem_filter,
    Bool.and_eq_true, and_assoc]

/-- Claim C5: the published ranking list is sorted by unique-active-account
count in descending order, and the rank fields form the dense sequence
1, 2, ... in list order (entry at position i has rank i + 1, no gaps). -/
theorem ranking_sorted_desc_with_dense_ranks (order : List String)
    (s : DAppIndexer) (now : Nat) :
    ((update_dapp_rankings_24h order s now).dapp_rankings).Pairwise DauGe ∧
    ((update_dapp_rankings_24h order s now).dapp_rankings).map (fun r => r.rank)
      = rankSeq 1 ((update_dapp_rankings_24h order s now).dapp_rankings).length := by
  constructor
  · exact assignRanksFrom_pairwise (sortByDauDesc_sorted _)
  · have hdef : (update_dapp_rankings_24h order s now).dapp_rankings
        = assignRanksFrom 1 (sortByDauDesc
            (order.map (mkRanking s.dapp_names s.dapp_interactions now))) := rfl
    rw [hdef, assignRanksFrom_map_rank, assignRanksFrom_length]

/-- Claim C10: recomputing the ranking writes only the `dapp_rankings` field;
the interaction log, the registry and the last processed checkpoint are
unchanged. -/
theorem ranking_update_frame (order : List String) (s : DAppIndexer) (now : Nat) :
    (update_dapp_rankings_24h order s now).dapp_interactions = s.dapp_interactions ∧
    (update_dapp_rankings_24h order s now).dapp_names = s.dapp_names ∧
    (update_dapp_rankings_24h order s now).last_processed_checkpoint
      = s.last_processed_checkpoint :=
  ⟨rfl, rfl, rfl⟩

/-- Claim C1 (counterexample): on a snapshot with two tied applications, two
admissible hash-map iteration orders — both enumerating exactly the key set —
give different ordered ranking lists, so two invocations of the calculator on
the same snapshot and "now" need not agree.  The code sorts only by the count
and has no deterministic secondary key; tie order follows the iteration order
of a freshly seeded `HashMap`. -/
theorem rank_tie_order_not_deterministic :
    validOrder stateAB.dapp_names stateAB.dapp_interactions 100000 ["A", "B"] ∧
    validOrder stateAB.dapp_names stateAB.dapp_interactions 100000 ["B", "A"] ∧
    update_dapp_rankings_24h ["A", "B"] stateAB 100000
      ≠ update_dapp_rankings_24h ["B", "A"] stateAB 100000 := by
  refine ⟨by decide, by decide, by decide⟩

/-- Claim C1 (amended): for any two admissible iteration orders over the same
snapshot and "now", the two ranking lists agree as multisets once the rank
field is erased, have identical descending score sequences, and identical
dense rank sequences; only the tie order among entries with equal scores (and
with it the pairing of ranks to tied names) can differ. -/
theorem rank_determinism_up_to_tie_order (s : DAppIndexer) (now : Nat)
    (o1 o2 : List String)
    (h1 : validOrder s.dapp_names s.dapp_interactions now o1)
    (h2 : validOrder s.dapp_names s.dapp_interactions now o2) :
    ((update_dapp_rankings_24h o1 s now).dapp_rankings.map eraseRank).Perm
      ((update_dapp_rankings_24h o2 s now).dapp_rankings.map eraseRank) ∧
    (update_dapp_rankings_24h o1 s now).dapp_rankings.map (fun r => r.dau_24h)
      = (update_dapp_rankings_24h o2 s now).dapp_rankings.map (fun r => r.dau_24h) ∧
    (update_dapp_rankings_24h o1 s now).dapp_rankings.map (fun r => r.rank)
      = (update_dapp_rankings_24h o2 s now).dapp_rankings.map (fun r => r.rank) := by
  have ho : o1.Perm o2 := h1.trans h2.symm
  have hpre : (o1.map (mkRanking s.dapp_names s.dapp_interactions now)).Perm
      (o2.map (mkRanking s.dapp_names s.dapp_interactions now)) :=
    ho.map _
  have hsort : (sortByDauDesc (o1.map (mkRanking s.dapp_names s.dapp_interactions now))).Perm
      (sortByDauDesc (o2.map (mkRanking s.dapp_names s.dapp_interactions now))) :=
    (sortByDauDesc_perm _).trans (hpre.trans (sortByDauDesc_perm _).symm)
  have hd1 : (update_dapp_rankings_24h o1 s now).dapp_rankings
      = assignRanksFrom 1 (sortByDauDesc
          (o1.map (mkRanking s.dapp_names s.dapp_interactions now))) := rfl
  have hd2 : (update_dapp_rankings_24h o2 s now).dapp_rankings
      = assignRanksFrom 1 (sortByDauDesc
          (o2.map (mkRanking s.dapp_names s.dapp_interactions now))) := rfl
  refine ⟨?_, ?_, ?_⟩
  · rw [hd1, hd2, assignRanksFrom_map_eraseRank, assignRanksFrom_map_eraseRank]
    exact hsort.map eraseRank
  · rw [hd1, hd2, assignRanksFrom_map_dau, assignRanksFrom_map_dau]
    have hanti : IsAntisymm Nat (fun a b => b ≤ a) := ⟨fun a b ha hb => le_antisymm hb ha⟩
    have hs1 : List.Sorted (fun a b : Nat => b ≤ a)
        ((sortByDauDesc (o1.map (mkRanking s.dapp_names s.dapp_interactions now))).map
          (fun r => r.dau_24h)) :=
      List.pairwise_map.mpr (sortByDauDesc_sorted _)
    have hs2 : List.Sorted (fun a b : Nat => b ≤ a)
        ((sortByDauDesc (o2.map (mkRanking s.dapp_names s.dapp_interactions now))).map
          (fun r => r.dau_24h)) :=
      List.pairwise_map.mpr (sortByDauDesc_sorted _)
    exact @List.eq_of_perm_of_sorted Nat (fun a b => b ≤ a) hanti _ _
      (hsort.map (fun r => r.dau_24h)) hs1 hs2
  · rw [hd1, hd2, assignRanksFrom_map_rank, assignRanksFrom_map_rank]
    have : (sortByDauDesc (o1.map (mkRanking s.dapp_names s.dapp_interactions now))).length
        = (sortByDauDesc (o2.map (mkRanking s.dapp_names s.dapp_interactions now))).length :=
      hsort.length_eq
    rw [this]

/-- Claim C1 witness: the amended determinism theorem applied to the concrete
tied snapshot and the two concrete admissible orders. -/
theorem rank_determinism_up_to_tie_order_witness :
    validOrder stateAB.dapp_names stateAB.dapp_interactions 100000 ["A", "B"] ∧
    validOrder stateAB.dapp_names stateAB.dapp_interactions 100000 ["B", "A"] ∧
    (update_dapp_rankings_24h ["A", "B"] stateAB 100000).dapp_rankings.map
        (fun r => r.dau_24h)
      = (update_dapp_rankings_24h ["B", "A"] stateAB 100000).dapp_rankings.map
        (fun r => r.dau_24h) :=
  ⟨by decide, by decide,
    (rank_determinism_up_to_tie_order stateAB 100000 ["A", "B"] ["B", "A"]
      (by decide) (by decide)).2.1⟩

/-- Claim C4: scores are unique-active-account counts.  (1) Every entry the
calculator produces carries as its score the cardinality of the set of
distinct senders among in-window interactions resolving to its display name;
(2) appending an interaction whose sender already appears for its display name
changes no score; (3) appending an interaction with a new sender raises
exactly that count of that display name by 1 and no other; (4) redelivering the
whole log (an identical batch) leaves every count unchanged. -/
theorem score_is_distinct_account_count :
    (∀ (order : List String) (s : DAppIndexer) (now : Nat) (r : DAppRanking),
        r ∈ (update_dapp_rankings_24h order s now).dapp_rankings →
        r.dau_24h = (sendersSet s.dapp_names s.dapp_interactions now r.dapp_name).card) ∧
    (∀ (reg : Registry) (log : List DAppInteraction) (now : Nat)
        (i : DAppInteraction) (n : String),
        qualifies reg now n i = true → i.sender ∈ sendersSet reg log now n →
        ∀ m, dauCount reg (log ++ [i]) now m = dauCount reg log now m) ∧
    (∀ (reg : Registry) (log : List DAppInteraction) (now : Nat)
        (i : DAppInteraction) (n : String),
        qualifies reg now n i = true → i.sender ∉ sendersSet reg log now n →
        dauCount reg (log ++ [i]) now n = dauCount reg log now n + 1 ∧
        ∀ m, m ≠ n → dauCount reg (log ++ [i]) now m = dauCount reg log now m) ∧
    (∀ (reg : Registry) (log : List DAppInteraction) (now : Nat) (m : String),
        dauCount reg (log ++ log) now m = dauCount reg log now m) := by
  refine ⟨?_, ?_, ?_, ?_⟩
  · intro order s now r hr
    have hr2 : r ∈ assignRanksFrom 1 (sortByDauDesc
        (order.map (mkRanking s.dapp_names s.dapp_interactions now))) := hr
    obtain ⟨x, hx, hname, hdau⟩ := mem_assignRanksFrom hr2
    have hx2 : x ∈ order.map (mkRanking s.dapp_names s.dapp_interactions now) :=
      (sortByDauDesc_perm _).mem_iff.mp hx
    obtain ⟨n, _, rfl⟩ := List.mem_map.mp hx2
    rw [hdau, hname]
    rfl
  · intro reg log now i n hq hmem m
    by_cases hm : m = n
    · subst hm
      unfold dauCount
      rw [sendersSet_append, sendersSet_singleton_of_qualifies hq]
      rw [Finset.union_eq_left.mpr (Finset.singleton_subset_iff.mpr hmem)]
    · unfold dauCount
      rw [sendersSet_append, sendersSet_singleton_of_not_qualifies
        (qualifies_unique hq hm), Finset.union_empty]
  · intro reg log now i n hq hmem
    constructor
    · unfold dauCount
      rw [sendersSet_append, sendersSet_singleton_of_qualifies hq,
        Finset.union_comm, ← Finset.insert_eq]
      exact Finset.card_insert_of_not_mem hmem
    · intro m hm
      unfold dauCount
      rw [sendersSet_append, sendersSet_singleton_of_not_qualifies
        (qualifies_unique hq hm), Finset.union_empty]
  · intro reg log now m
    unfold dauCount
    rw [sendersSet_append, Finset.union_self]

/-- Claim C4 witness: the duplicate-insensitivity part applied to a concrete
snapshot and a concrete duplicate interaction. -/
theorem score_is_distinct_account_count_witness :
    qualifies regAB 100000 "A" iDup = true ∧
    iDup.sender ∈ sendersSet regAB logAB 100000 "A" ∧
    dauCount regAB (logAB ++ [iDup]) 100000 "A" = dauCount regAB logAB 100000 "A" :=
  ⟨by decide, by decide,
    score_is_distinct_account_count.2.1 regAB logAB 100000 iDup "A"
      (by decide) (by decide) "A"⟩

/-- Claim C6: a display name with no qualifying (in-window, tracked-origin)
interaction in the snapshot does not occur among the display names of the
calculator output — it is omitted rather than listed with a zero score. -/
theorem zero_score_apps_omitted (s : DAppIndexer) (now : Nat) (order : List String)
    (hv : validOrder s.dapp_names s.dapp_interactions now order) (n : String)
    (hq : s.dapp_interactions.filter (qualifies s.dapp_names now n) = []) :
    n ∉ (update_dapp_rankings_24h order s now).dapp_rankings.map
      (fun r => r.dapp_name) := by
  intro hmem
  have hd : (update_dapp_rankings_24h order s now).dapp_rankings
      = assignRanksFrom 1 (sortByDauDesc
          (order.map (mkRanking s.dapp_names s.dapp_interactions now))) := rfl
  rw [hd, assignRanksFrom_map_name] at hmem
  have hperm := (sortByDauDesc_perm
    (order.map (mkRanking s.dapp_names s.dapp_interactions now))).map
    (fun r => r.dapp_name)
  have hmem2 : n ∈ (order.map (mkRanking s.dapp_names s.dapp_interactions now)).map
      (fun r => r.dapp_name) := hperm.mem_iff.mp hmem
  rw [List.map_map] at hmem2
  have hmem3 : n ∈ order := by
    simpa [Function.comp, mkRanking] using hmem2
  have hmem4 : n ∈ qualifyingNamesList s.dapp_names s.dapp_interactions now :=
    hv.mem_iff.mp hmem3
  obtain ⟨i, hi, hqi⟩ := mem_qualifyingNamesList.mp hmem4
  exact (List.filter_eq_nil_iff.mp hq i hi) hqi

/-- Claim C6 witness: the omission theorem applied to a concrete snapshot and
a display name with no qualifying interactions. -/
theorem zero_score_apps_omitted_witness :
    validOrder stateAB.dapp_names stateAB.dapp_interactions 100000 ["A", "B"] ∧
    stateAB.dapp_interactions.filter (qualifies stateAB.dapp_names 100000 "C") = [] ∧
    "C" ∉ (update_dapp_rankings_24h ["A", "B"] stateAB 100000).dapp_rankings.map
      (fun r => r.dapp_name) :=
  ⟨by decide, by decide,
    zero_score_apps_omitted stateAB 100000 ["A", "B"] (by decide) "C" (by decide)⟩

/-- Claim C2 (counterexample): with one previously persisted row, publishing
one ranking where the `DELETE` succeeds and the `INSERT` fails returns an
error and leaves the table empty — the previously persisted snapshot is NOT
intact, because the two statements do not run in one transaction. -/
theorem publish_failure_loses_previous_snapshot :
    (save_rankings_from_memory [rank1] [row0] true false).ok = false ∧
    (save_rankings_from_memory [rank1] [row0] true false).final ≠ [row0] := by
  exact ⟨by decide, by decide⟩

/-- Claim C2 (amended): `save_rankings_from_memory` is a non-transactional
delete-then-insert.  A concurrent reader never observes old rows mixed with
new rows — every observable state is wholly the old snapshot, wholly empty,
or wholly the new snapshot — but the empty intermediate is observable.  If
the `DELETE` fails the previous snapshot is intact; if the `INSERT` fails the
table is left empty (the previous snapshot is lost); otherwise the new
snapshot replaces the old one. -/
theorem publish_delete_insert_characterization (rankings : List DAppRanking)
    (db : List DbRow) (dOk iOk : Bool) :
    (∀ st ∈ (save_rankings_from_memory rankings db dOk iOk).observable,
        st = db ∨ st = [] ∨ st = rankings.map rowOfRanking) ∧
    (dOk = false →
        (save_rankings_from_memory rankings db dOk iOk).final = db ∧
        (save_rankings_from_memory rankings db dOk iOk).ok = false) ∧
    (dOk = true → iOk = false → rankings ≠ [] →
        (save_rankings_from_memory rankings db dOk iOk).final = [] ∧
        (save_rankings_from_memory rankings db dOk iOk).ok = false) ∧
    (dOk = true → (iOk = true ∨ rankings = []) →
        (save_rankings_from_memory rankings db dOk iOk).final
          = rankings.map rowOfRanking ∧
        (save_rankings_from_memory rankings db dOk iOk).ok = true) := by
  cases dOk with
  | false =>
    refine ⟨?_, fun _ => ⟨rfl, rfl⟩, fun h => absurd h (by simp), fun h => absurd h (by simp)⟩
    intro st hst
    simp only [save_rankings_from_memory, Bool.not_false, if_true,
      List.mem_singleton] at hst
    exact Or.inl hst
  | true =>
    cases hr : rankings.isEmpty with
    | true =>
      have hre : rankings = [] := List.isEmpty_iff.mp hr
      subst hre
      refine ⟨?_, by simp, ?_, fun _ _ => ⟨rfl, rfl⟩⟩
      · intro st hst
        simp [save_rankings_from_memory] at hst
        rcases hst with rfl | rfl
        · exact Or.inl rfl
        · exact Or.inr (Or.inl rfl)
      · intro _ _ hne; exact absurd rfl hne
    | false =>
      have hne : rankings ≠ [] := by
        intro h; subst h; simp at hr
      cases iOk with
      | false =>
        refine ⟨?_, by simp, fun _ _ _ => ⟨?_, ?_⟩, ?_⟩
        · intro st hst
          simp [save_rankings_from_memory, hr] at hst
          rcases hst with rfl | rfl
          · exact Or.inl rfl
          · exact Or.inr (Or.inl rfl)
        · simp [save_rankings_from_memory, hr]
        · simp [save_rankings_from_memory, hr]
        · rintro _ (h | h)
          · cases h
          · exact absurd h hne
      | true =>
        refine ⟨?_, by simp, fun _ h _ => absurd h (by simp), fun _ _ => ⟨?_, ?_⟩⟩
        · intro st hst
          simp [save_rankings_from_memory, hr] at hst
          rcases hst with rfl | rfl | rfl
          · exact Or.inl rfl
          · exact Or.inr (Or.inl rfl)
          · exact Or.inr (Or.inr rfl)
        · simp [save_rankings_from_memory, hr]
        · simp [save_rankings_from_memory, hr]

/-- Claim C2 witness: the amended characterization applied concretely — a
failed `DELETE` leaves the previous snapshot, and a failed `INSERT` (after a
successful `DELETE`) leaves the table empty. -/
theorem publish_delete_insert_characterization_witness :
    ((save_rankings_from_memory [rank1] [row0] false true).final = [row0] ∧
      (save_rankings_from_memory [rank1] [row0] false true).ok = false) ∧
    ((save_rankings_from_memory [rank1] [row0] true false).final = [] ∧
      (save_rankings_from_memory [rank1] [row0] true false).ok = false) :=
  ⟨(publish_delete_insert_characterization [rank1] [row0] false true).2.1 rfl,
    (publish_delete_insert_characterization [rank1] [row0] true false).2.2.1
      rfl rfl (by decide)⟩

/-- The extractor emits an event iff its origin is registered and its sender
is non-empty. -/
def eventQualifies (reg : Registry) (e : Event) : Bool :=
  (regGet reg e.package_id).isSome && !(e.sender == "")

lemma extractFromEvents_length (reg : Registry) (digest : String) (ts : Nat)
    (evs : List Event) :
    (extractFromEvents reg digest ts evs).length
      = (evs.filter (eventQualifies reg)).length := by
  induction evs with
  | nil => rfl
  | cons e es ih =>
    unfold extractFromEvents
    cases h : regGet reg e.package_id with
    | none => simp [List.filter_cons, eventQualifies, h, ih]
    | some p =>
      by_cases hs : e.sender == ""
      · simp [List.filter_cons, eventQualifies, h, hs, ih]
      · simp [List.filter_cons, eventQualifies, h, hs, ih]

lemma extractFromEvents_mem (reg : Registry) (digest : String) (ts : Nat)
    (evs : List Event) (r : DAppInteraction)
    (h : r ∈ extractFromEvents reg digest ts evs) :
    (regGet reg r.package_id).isSome = true ∧ r.sender ≠ "" ∧
    r.timestamp = ts ∧ r.transaction_digest = digest ∧
    r.dapp_name = (regGet reg r.package_id).map Prod.fst := by
  induction evs with
  | nil => cases h
  | cons e es ih =>
    unfold extractFromEvents at h
    cases hg : regGet reg e.package_id with
    | none => simp only [hg] at h; exact ih h
    | some p =>
      simp only [hg] at h
      by_cases hs : e.sender == ""
      · rw [if_pos hs] at h; exact ih h
      · rw [if_neg hs] at h
        rcases List.mem_cons.mp h with rfl | h
        · refine ⟨?_, ?_, rfl, rfl, ?_⟩
          · show (regGet reg e.package_id).isSome = true
            rw [hg]; rfl
          · exact fun hse => hs (beq_iff_eq.mpr hse)
          · show some p.1 = (regGet reg e.package_id).map Prod.fst
            rw [hg]; rfl
        · exact ih h

/-- Claim C7: the extractor yields exactly one interaction record per event
whose origin identifier is a registry key and whose sender is non-empty, and
zero records for unregistered-origin or empty-sender events; every emitted
record carries a registered origin, a non-empty sender, the batch timestamp,
the transaction digest, and the registry-resolved display name.  The function
is total (dropped events raise no error) and has no effect beyond its return
value. -/
theorem extractor_one_record_per_registered_event (reg : Registry)
    (tx : CheckpointTransaction) (ts : Nat) :
    (extract_dapp_interactions reg tx ts).length
      = ((tx.events.getD []).filter (eventQualifies reg)).length ∧
    ∀ r ∈ extract_dapp_interactions reg tx ts,
      (regGet reg r.package_id).isSome = true ∧ r.sender ≠ "" ∧
      r.timestamp = ts ∧ r.transaction_digest = tx.digest ∧
      r.dapp_name = (regGet reg r.package_id).map Prod.fst := by
  unfold extract_dapp_interactions
  cases he : tx.events with
  | none => exact ⟨rfl, fun r hr => absurd hr (List.not_mem_nil r)⟩
  | some evs =>
    refine ⟨?_, ?_⟩
    · simpa using extractFromEvents_length reg tx.digest ts evs
    · intro r hr
      exact extractFromEvents_mem reg tx.digest ts evs r hr

/-- Claim C7 witness: the membership part applied to a concrete transaction
mixing a qualifying event, an unregistered-origin event and an empty-sender
event; the count part is also instantiated (one record from three events). -/
theorem extractor_one_record_per_registered_event_witness :
    recordW ∈ extract_dapp_interactions regAB txW 100 ∧
    (regGet regAB recordW.package_id).isSome = true ∧
    (extract_dapp_interactions regAB txW 100).length = 1 :=
  ⟨by decide,
    ((extractor_one_record_per_registered_event regAB txW 100).2 recordW
      (by decide)).1,
    by rw [(extractor_one_record_per_registered_event regAB txW 100).1]; decide⟩

/-- Claim C8: the per-batch path of the scheduler.  The returned batch records
are exactly those extracted from the transactions of the checkpoint against the
registry; the new interaction log is the inserted log filtered by the
eviction predicate (so eviction runs on every batch); the rankings are
recomputed from the pruned log exactly when the checkpoint sequence number is
divisible by 10 or the batch yielded more than 5 records, and are otherwise
left untouched; the last processed checkpoint is recorded. -/
theorem scheduler_batch_path (order : List String) (s : DAppIndexer)
    (data : CheckpointData) (now : Nat) :
    (process_checkpoint order s data now).2
        = (data.transactions.map
            (fun tx => extract_dapp_interactions s.dapp_names tx data.timestamp)).flatten ∧
    (process_checkpoint order s data now).1.dapp_interactions
        = (s.dapp_interactions ++ (process_checkpoint order s data now).2).filter
            (keepInteraction s.dapp_names now) ∧
    (process_checkpoint order s data now).1.dapp_rankings
        = (if shouldRecompute data.sequence_number
              (process_checkpoint order s data now).2.length
           then computeRankings s.dapp_names order
                  ((s.dapp_interactions ++ (process_checkpoint order s data now).2).filter
                    (keepInteraction s.dapp_names now)) now
           else s.dapp_rankings) ∧
    (process_checkpoint order s data now).1.dapp_names = s.dapp_names ∧
    (process_checkpoint order s data now).1.last_processed_checkpoint
      = data.sequence_number := by
  refine ⟨rfl, ?_, ?_, ?_, ?_⟩ <;>
    (simp only [process_checkpoint] <;> first | rfl | (split <;> rfl))

/-- Claim C9: `Config::from_env` returns an error exactly when the connection
string is absent, the refresh interval fails to parse as a `u64` or parses
below the 60-second floor, or the remote storage value fails the HTTP/HTTPS
prefix check; and when the refresh interval variable is unset, a successful
load yields the default of 120 seconds.  Since the binary calls this before
building any worker, an error aborts startup before any processing. -/
theorem config_error_characterization (env : String → Option String) :
    (isErr (from_env env) = true ↔
      env ("DATABASE_URL") = none ∨
      parseU64 ((env ("UPDATE_INTERVAL_SECONDS")).getD ("120")) = none ∨
      (∃ n, parseU64 ((env ("UPDATE_INTERVAL_SECONDS")).getD ("120")) = some n ∧
        n < 60) ∨
      rustStartsWith ((env ("REMOTE_STORAGE")).getD
        ("https://checkpoints.mainnet.sui.io")) ("http") = false) ∧
    (∀ c : Config, env ("UPDATE_INTERVAL_SECONDS") = none →
      from_env env = Except.ok c → c.update_interval = 120) := by
  constructor
  · cases hdb : env ("DATABASE_URL") with
    | none => simp [from_env, hdb, isErr]
    | some url =>
      cases hp : parseU64 ((env ("UPDATE_INTERVAL_SECONDS")).getD ("120")) with
      | none => simp [from_env, hdb, hp, isErr]
      | some n =>
        simp only [from_env, hdb, hp]
        unfold validate
        by_cases h60 : n < 60
        · rw [if_pos h60]
          simp only [isErr, true_iff]
          exact Or.inr (Or.inr (Or.inl ⟨n, rfl, h60⟩))
        · rw [if_neg h60]
          by_cases hhttp : rustStartsWith ((env ("REMOTE_STORAGE")).getD
              ("https://checkpoints.mainnet.sui.io")) ("http") = false
          · rw [if_pos (by simp [hhttp])]
            simp only [isErr, true_iff]
            exact Or.inr (Or.inr (Or.inr hhttp))
          · rw [if_neg (by simp [Bool.not_eq_false] at hhttp; simp [hhttp])]
            constructor
            · intro hfalse
              simp [isErr] at hfalse
            · rintro (h | h | ⟨m, hm, hlt⟩ | h)
              · cases h
              · cases h
              · cases hm
                exact absurd hlt h60
              · exact absurd h hhttp
  · intro c hU hok
    rw [from_env, hU] at hok
    cases hdb : env ("DATABASE_URL") with
    | none => rw [hdb] at hok; cases hok
    | some url =>
      rw [hdb] at hok
      have hp : parseU64 ((none : Option String).getD ("120")) = some 120 := by decide
      rw [hp] at hok
      simp only at hok
      cases hv : validate
        { database_url := url, update_interval := 120,
          remote_storage := (env ("REMOTE_STORAGE")).getD
            ("https://checkpoints.mainnet.sui.io"),
          backfill_progress_file_path := (env ("BACKFILL_PROGRESS_FILE_PATH")).getD
            ("backfill_progress/backfill_progress") } with
      | error e => rw [hv] at hok; cases hok
      | ok u => rw [hv] at hok; cases hok; rfl

/-- Claim C9 witness: the characterization applied to a concrete environment
that sets only the connection string — the load succeeds and the interval
defaults to 120 seconds. -/
theorem config_error_characterization_witness :
    envW ("UPDATE_INTERVAL_SECONDS") = none ∧ cfgW.update_interval = 120 :=
  ⟨rfl, (config_error_characterization envW).2 cfgW rfl rfl⟩

end SurfSui
